import Mathlib

/-!
Verification of the smart-traffic-intelligence frontend core

Shallow embedding of the decision-relevant frontend logic of the
smart-traffic-intelligence repository:

* `frontend/src/services/api.js` — request parameter defaults and the
  proxy-then-direct fetch fallback discipline;
* `frontend/src/components/Gauge.jsx` — gauge normalisation/clamping;
* the `Analysis` page (`toTrend3`, the recommendation fallback, `techTrend`,
  the polling loop in `onAnalyze`);
* the `XAIExplain` component (`toTrend3`, `techTrend`, the congestion
  penalty mapping);
* the `Hotspots` component (fixed-width window partition + ranking).

JavaScript numbers are modelled as `ℚ` (exact arithmetic); `Math.sqrt` is
modelled as `Real.sqrt` on the rational variance; nullish / optional values
as `Option`; thrown errors as `Except`.
-/

namespace Traffic

/-- A frame record as consumed by the frontend: both count fields may be
absent in the JSON (`f?.smoothed_count ?? f?.vehicle_count ?? 0`). -/
structure FrameRec where
  vehicle_count : Option ℚ
  smoothed_count : Option ℚ
deriving DecidableEq

/-- JS expression `Number(f?.smoothed_count ?? f?.vehicle_count ?? 0)` — the nullish
coalescing chain used by `Hotspots`, `techTrend` and the charts. -/
def frameVal (f : FrameRec) : ℚ :=
  f.smoothed_count.getD (f.vehicle_count.getD 0)

/-! ## toTrend3 (Analysis page and XAIExplain, identical copies) -/

/-- Function `toTrend3` from the Analysis page / XAIExplain: `String(raw || 'Stable')`
then map Worsening→Increasing, Improving→Decreasing, keep the three
canonical labels, anything else → Stable.  A `none` or empty string is
falsy in JS, hence the default. -/
def toTrend3Coerce (raw : Option String) : String :=
  match raw with
  | none => "Stable"
  | some s => if s = "" then "Stable" else s

def toTrend3 (raw : Option String) : String :=
  if toTrend3Coerce raw = "Worsening" then "Increasing"
  else if toTrend3Coerce raw = "Improving" then "Decreasing"
  else if toTrend3Coerce raw = "Increasing" || toTrend3Coerce raw = "Decreasing"
      || toTrend3Coerce raw = "Stable" then toTrend3Coerce raw
  else "Stable"

/-! ## Gauge (frontend/src/components/Gauge.jsx) -/

/-- JS helper `clamp(n, a, b) = Math.max(a, Math.min(b, n))`. -/
def clamp (n a b : ℚ) : ℚ := max a (min b n)

/-- The gauge fill fraction: `(Number(value) - min) / (max - min || 1)`
clamped into `[0, 1]`.  The `|| 1` guard replaces a zero denominator by 1. -/
def gaugePct (value mn mx : ℚ) : ℚ :=
  let denom := if mx - mn = 0 then 1 else mx - mn
  clamp ((value - mn) / denom) 0 1

/-- The gauge divisor after the `|| 1` guard. -/
def gaugeDenom (mn mx : ℚ) : ℚ := if mx - mn = 0 then 1 else mx - mn

/-- JS expression `angle = 180 * pct - 90`. -/
def gaugeAngle (value mn mx : ℚ) : ℚ := 180 * gaugePct value mn mx - 90

/-! ## Recommendation text fallback (Analysis page) -/

/-- Whether `xs` starts with the character pattern `pat`. -/
def startsWithChars : List Char → List Char → Bool
  | [], _ => true
  | _ :: _, [] => false
  | p :: ps, c :: cs => p == c && startsWithChars ps cs

/-- Whether `pat` occurs as a contiguous run somewhere in `xs`. -/
def hasSubChars (pat : List Char) : List Char → Bool
  | [] => startsWithChars pat []
  | c :: cs => startsWithChars pat (c :: cs) || hasSubChars pat cs

/-- The JS regex test `/high/i.test(s)`: the letters `high` occur in `s`,
case-insensitively. -/
def hasHighCI (s : String) : Bool :=
  hasSubChars "high".toList (s.toList.map Char.toLower)

/-- The recommendation fallback on the Analysis page:
`parkingScore < 0 || /high/i.test(congestion) ? 'Avoid parking' : 'Okay to park'`. -/
def recFallback (parkingScore : ℚ) (congestion : String) : String :=
  if parkingScore < 0 || hasHighCI congestion then "Avoid parking"
  else "Okay to park"

/-- JS expression `String(data?.recommendation_text || fallback)`: a present, non-empty
backend text wins; otherwise the fallback is displayed. -/
def recText (backendText : Option String) (parkingScore : ℚ)
    (congestion : String) : String :=
  match backendText with
  | some s => if s = "" then recFallback parkingScore congestion else s
  | none => recFallback parkingScore congestion

/-! ## Congestion penalty mapping (XAIExplain) -/

/-- JS expression `congestion === 'High' ? 30 : congestion === 'Medium' ? 10 : 0`
(appears both in `simpleBullets` and in `techText`). -/
def penaltyFor (congestion : String) : ℤ :=
  if congestion = "High" then 30 else if congestion = "Medium" then 10 else 0

/-- Modelled from the spec: the backend ParkingScorer (not part of the
frontend sources) computes `final_score = base - penalty` where `base =
baseline_95p - smoothed_count` and the penalty is the congestion penalty. -/
def finalScore (base : ℚ) (congestion : String) : ℚ :=
  base - (penaltyFor congestion : ℚ)

/-! ## API request parameter defaults (frontend/src/services/api.js) -/

/-- The resolved form fields of `analyzeTrafficAsync({ video_path,
save_overlay = true, conf_threshold = 0.4, smoothing_window = 5 })`:
an omitted argument takes the JS default parameter value. -/
structure AnalyzeAsyncParams where
  video_path : String
  save_overlay : Bool
  conf_threshold : ℚ
  smoothing_window : ℚ
deriving DecidableEq

def analyzeTrafficAsyncParams (video_path : String) (save_overlay : Option Bool)
    (conf_threshold : Option ℚ) (smoothing_window : Option ℚ) :
    AnalyzeAsyncParams :=
  { video_path := video_path
    save_overlay := save_overlay.getD true
    conf_threshold := conf_threshold.getD (2/5)
    smoothing_window := smoothing_window.getD 5 }

/-- The resolved query parameter of `getClimateImpact({ ...,
emission_factor = 0.23, ... })`. -/
def climateEmissionFactor (emission_factor : Option ℚ) : ℚ :=
  emission_factor.getD (23/100)

/-- The resolved query parameter of `getAccessibilityImpact({ ...,
entrance_bias = 0, ... })`. -/
def accessibilityEntranceBias (entrance_bias : Option ℚ) : ℚ :=
  entrance_bias.getD 0

/-! ## techTrend (Analysis page and XAIExplain, identical copies)

The JS computes a record `{ slope, volChangePct, N }` (or `null` when fewer
than 6 samples are in the operating window).  The three fields are embedded
as separate functions sharing the same window computation. -/

/-- JS expression `N = Math.min(frames.length, 90)`. -/
def trendN (frames : List FrameRec) : ℕ := min frames.length 90

/-- JS expression `ys = frames.slice(frames.length - N).map(f => Number(f?.smoothed_count
?? f?.vehicle_count ?? 0))` — the last `N` per-frame values. -/
def trendWindow (frames : List FrameRec) : List ℚ :=
  (frames.drop (frames.length - trendN frames)).map frameVal

/-- The `slope` field of `techTrend`:
`(last - first) / Math.max(1, ys.length - 1)`, or `none` when `N < 6`
(the JS returns `null`). -/
def techTrendSlope (frames : List FrameRec) : Option ℚ :=
  if trendN frames < 6 then none
  else
    some (((trendWindow frames).getLastD 0 - (trendWindow frames).headD 0) /
      (max 1 ((trendWindow frames).length - 1) : ℕ))

/-- The arithmetic mean used inside the local `std` helper (`0` on an empty
array, matching the early return). -/
def jsMean (arr : List ℚ) : ℚ :=
  if arr.length = 0 then 0 else arr.sum / arr.length

/-- The population variance computed by the local `std` helper before the
square root: `arr.reduce((s,x)=>s+((x-mean)**2),0) / arr.length`
(`0` on an empty array). -/
def popVar (arr : List ℚ) : ℚ :=
  if arr.length = 0 then 0
  else (arr.map (fun x => (x - jsMean arr) ^ 2)).sum / arr.length

/-- The local `std` helper: `Math.sqrt` of the population variance. -/
noncomputable def jsStd (arr : List ℚ) : ℝ :=
  Real.sqrt (popVar arr)

/-- The first half of the window: `a = ys.slice(0, mid)` with
`mid = Math.floor(ys.length / 2)`. -/
def trendHalfA (frames : List FrameRec) : List ℚ :=
  (trendWindow frames).take ((trendWindow frames).length / 2)

/-- The second half of the window: `b = ys.slice(mid)`. -/
def trendHalfB (frames : List FrameRec) : List ℚ :=
  (trendWindow frames).drop ((trendWindow frames).length / 2)

/-- The `volChangePct` field of `techTrend`:
`stdA > 0 ? ((stdB - stdA) / stdA) * 100 : 0`, or `none` when `N < 6`. -/
noncomputable def techTrendVol (frames : List FrameRec) : Option ℝ :=
  if trendN frames < 6 then none
  else
    some (if 0 < jsStd (trendHalfA frames) then
        ((jsStd (trendHalfB frames) - jsStd (trendHalfA frames)) /
          jsStd (trendHalfA frames)) * 100
      else 0)

/-- Modelled from the spec: the backend TrendDetector (not part of the
frontend sources) outputs outlook `Stable` with confidence `Low` when fewer
than 6 samples are available. -/
def degradedTrendOutput : String × String := ("Stable", "Low")

/-! ## Hotspots (frontend/src/components/Hotspots.jsx) -/

/-- One aggregated window of the `Hotspots` partition
(`{ start, end, avg }`; `stop` stands for the JS field `end`). -/
structure Seg where
  start : ℕ
  stop : ℕ
  avg : ℚ
deriving DecidableEq

/-- The window width: `W = Math.max(1, Math.min(windowSize,
Math.floor(N / 3) || 1))` — the `|| 1` replaces a zero by 1. -/
def hotspotW (N windowSize : ℕ) : ℕ :=
  max 1 (min windowSize (if N / 3 = 0 then 1 else N / 3))

/-- The loop `for(i = 0; i < N; i += W)` pushing
`{ start: i, end: Math.min(N-1, i+W-1), avg }` for the slice
`vals.slice(i, i+W)`; rendered as a map over the chunk indices
`0, 1, ..., ceil(N/W) - 1` (so chunk `k` starts at `i = k*W`). -/
def hotspotAgg (vals : List ℚ) (W : ℕ) : List Seg :=
  (List.range ((vals.length + W - 1) / W)).map (fun k =>
    let slice := (vals.drop (k * W)).take W
    { start := k * W
      stop := min (vals.length - 1) (k * W + W - 1)
      avg := slice.sum / slice.length })

/-- JS expression `agg.sort((a,b) => b.avg - a.avg).slice(0, topK)`: sort by average
descending, keep the top `topK`. -/
def hotspotRank (agg : List Seg) (topK : ℕ) : List Seg :=
  (agg.mergeSort (fun a b => b.avg ≤ a.avg)).take topK

/-- JS expression `Math.max(...sorted.map(r => r.avg)) || 1`: the spread maximum of an
empty list is `-Infinity` (falsy) and a zero maximum is falsy, both
replaced by 1. -/
def hotspotMaxAvg (sorted : List Seg) : ℚ :=
  match (sorted.map Seg.avg).max? with
  | none => 1
  | some m => if m = 0 then 1 else m

/-- The `windows` value of the `Hotspots` component (without the final
`pct` percentage decoration, which alters no field used below): empty
series → no windows, otherwise partition, rank, truncate. -/
def hotspotWindows (frames : List FrameRec) (windowSize topK : ℕ) : List Seg :=
  if (frames.map frameVal).length = 0 then []
  else
    hotspotRank
      (hotspotAgg (frames.map frameVal)
        (hotspotW (frames.map frameVal).length windowSize)) topK

/-! ## Polling loop (Analysis page, `onAnalyze`) -/

/-- What one `getProgress` round trip can yield: a response with a status
string, an optional stored result and an optional error message, or a
thrown fetch error. -/
inductive PollResp (R : Type) where
  | ok (status : String) (result : Option R) (err : Option String)
  | fail
deriving DecidableEq

/-- The client-side state touched by the poll callback: whether the
interval is still installed, the surfaced result (`setData`) and the
surfaced error message (`setError`). -/
structure PollState (R : Type) where
  active : Bool
  data : Option R
  errMsg : Option String
deriving DecidableEq

/-- One tick of the `setInterval` callback.  A tick on a cleared interval
never runs, so a non-`active` state is returned unchanged.  On
`status === 'done'` the interval is cleared and `p.result` is stored; on
`status === 'error'` the interval is cleared and `p.error || 'Analysis
error'` is surfaced; any other status (and a thrown fetch error, caught by
the surrounding `try`) leaves the loop running. -/
def pollStep {R : Type} (s : PollState R) (r : PollResp R) : PollState R :=
  if !s.active then s
  else
    match r with
    | .fail => s
    | .ok status result err =>
      if status = "done" then
        { active := false, data := result, errMsg := s.errMsg }
      else if status = "error" then
        { active := false, data := s.data
          errMsg := some ((err.filter (· ≠ "")).getD "Analysis error") }
      else s

/-- A whole polling run over a sequence of round-trip outcomes. -/
def pollRun {R : Type} (s : PollState R) (rs : List (PollResp R)) :
    PollState R :=
  rs.foldl pollStep s

/-! ## Fetch fallback discipline (frontend/src/services/api.js) -/

/-- Pattern `try { proxy } catch (e) { try { direct } catch (e2) { throw e } }`:
the shape shared by `uploadVideo`, `analyzeTraffic(Async)` and
`getProgress`.  `ε` is the error type, `ρ` the parsed response type. -/
def fetchFallback {ε ρ : Type} (proxy direct : Except ε ρ) : Except ε ρ :=
  match proxy with
  | .ok r => .ok r
  | .error e =>
    match direct with
    | .ok r => .ok r
    | .error _ => .error e

/-- Constant `API_BASE` default (`'/api'`). -/
def API_BASE : String := "/api"

/-- Constant `API_DIRECT` default (`'http://127.0.0.1:8000'`). -/
def API_DIRECT : String := "http://127.0.0.1:8000"

/-- Function `uploadVideo` against a network oracle `net` mapping each attempted URL
to its outcome. -/
def uploadVideo {ε ρ : Type} (net : String → Except ε ρ) : Except ε ρ :=
  fetchFallback (net (API_BASE ++ "/upload")) (net (API_DIRECT ++ "/upload"))

/-- Function `analyzeTrafficAsync` against a network oracle. -/
def analyzeTrafficAsyncFetch {ε ρ : Type} (net : String → Except ε ρ) :
    Except ε ρ :=
  fetchFallback (net (API_BASE ++ "/analyze_async"))
    (net (API_DIRECT ++ "/analyze_async"))

/-- Function `getProgress` against a network oracle (`q` is the encoded
`task_id` query string). -/
def getProgressFetch {ε ρ : Type} (net : String → Except ε ρ) (q : String) :
    Except ε ρ :=
  fetchFallback (net (API_BASE ++ "/progress?" ++ q))
    (net (API_DIRECT ++ "/progress?" ++ q))

/-! ## Helper lemmas -/

lemma pollStep_inactive {R : Type} (s : PollState R) (r : PollResp R)
    (h : s.active = false) : pollStep s r = s := by
  unfold pollStep
  rw [h]
  rfl

lemma pollRun_inactive {R : Type} (s : PollState R) (rs : List (PollResp R))
    (h : s.active = false) : pollRun s rs = s := by
  induction rs with
  | nil => rfl
  | cons r rs ih =>
    show pollRun (pollStep s r) rs = s
    rw [pollStep_inactive s r h]
    exact ih

lemma trendWindow_length (frames : List FrameRec) :
    (trendWindow frames).length = trendN frames := by
  have h : trendN frames ≤ frames.length := min_le_left _ _
  simp only [trendWindow, List.length_map, List.length_drop]
  omega

lemma trendWindow_suffix (frames : List FrameRec) :
    trendWindow frames <:+ frames.map frameVal := by
  unfold trendWindow
  rw [List.map_drop]
  exact List.drop_suffix _ _

lemma jsMean_replicate (n : ℕ) (c : ℚ) (hn : n ≠ 0) :
    jsMean (List.replicate n c) = c := by
  have hc : (n : ℚ) ≠ 0 := Nat.cast_ne_zero.mpr hn
  unfold jsMean
  rw [List.length_replicate, List.sum_replicate, if_neg hn, nsmul_eq_mul,
    mul_comm, mul_div_assoc, div_self hc, mul_one]

lemma popVar_replicate (n : ℕ) (c : ℚ) : popVar (List.replicate n c) = 0 := by
  rcases Nat.eq_zero_or_pos n with h | h
  · subst h; rfl
  · unfold popVar
    rw [List.length_replicate, if_neg (Nat.pos_iff_ne_zero.mp h),
      List.map_replicate, jsMean_replicate n c (Nat.pos_iff_ne_zero.mp h),
      sub_self, List.sum_replicate]
    norm_num

lemma jsStd_nonneg (arr : List ℚ) : 0 ≤ jsStd arr := Real.sqrt_nonneg _

lemma techTrendVol_of_stdA_eq_zero (frames : List FrameRec)
    (h6 : 6 ≤ frames.length) (h0 : jsStd (trendHalfA frames) = 0) :
    techTrendVol frames = some 0 := by
  unfold techTrendVol
  rw [if_neg (by unfold trendN; omega), if_neg (by rw [h0]; exact lt_irrefl 0)]

lemma hotspotW_pos (N windowSize : ℕ) : 0 < hotspotW N windowSize :=
  lt_of_lt_of_le one_pos (le_max_left _ _)

lemma mem_hotspotAgg {vals : List ℚ} {W : ℕ} {s : Seg}
    (hs : s ∈ hotspotAgg vals W) :
    ∃ k, k < (vals.length + W - 1) / W ∧ s.start = k * W ∧
      s.stop = min (vals.length - 1) (k * W + W - 1) := by
  unfold hotspotAgg at hs
  rcases List.mem_map.mp hs with ⟨k, hk, rfl⟩
  exact ⟨k, List.mem_range.mp hk, rfl, rfl⟩

lemma chunk_start_lt {N W k : ℕ} (hW : 0 < W)
    (hk : k < (N + W - 1) / W) : k * W < N := by
  have h2 : (k + 1) * W ≤ N + W - 1 := (Nat.le_div_iff_mul_le hW).mp hk
  by_contra hc
  push_neg at hc
  have h3 : N + W ≤ (k + 1) * W := by
    rw [Nat.succ_mul]
    exact Nat.add_le_add_right hc W
  have h4 : N + W ≤ N + W - 1 := le_trans h3 h2
  have h5 : N + W - 1 < N + W := Nat.sub_lt (Nat.add_pos_right _ hW) one_pos
  exact absurd (lt_of_le_of_lt h4 h5) (lt_irrefl _)

lemma chunk_sep {W : ℕ} (hW : 0 < W) {k k' : ℕ} (hkk : k < k') (M : ℕ) :
    min M (k * W + W - 1) < k' * W := by
  have h1 : k * W + W ≤ k' * W := by
    rw [← Nat.succ_mul]
    exact Nat.mul_le_mul_right W hkk
  have h2 : min M (k * W + W - 1) ≤ k * W + W - 1 := min_le_right _ _
  have h3 : k * W + W - 1 < k * W + W :=
    Nat.sub_lt (Nat.add_pos_right _ hW) one_pos
  exact lt_of_le_of_lt h2 (lt_of_lt_of_le h3 h1)

lemma hotspotAgg_pairwise_sep (vals : List ℚ) {W : ℕ} (hW : 0 < W) :
    List.Pairwise (fun s t => s.stop < t.start) (hotspotAgg vals W) := by
  unfold hotspotAgg
  rw [List.pairwise_map]
  refine List.Pairwise.imp ?_ (List.pairwise_lt_range _)
  intro k k' hkk
  exact chunk_sep hW hkk _

lemma hotspotAgg_bounds {vals : List ℚ} {W : ℕ} (hW : 0 < W) {s : Seg}
    (hs : s ∈ hotspotAgg vals W) :
    s.start ≤ s.stop ∧ s.stop ≤ vals.length - 1 := by
  rcases mem_hotspotAgg hs with ⟨k, hk, h1, h2⟩
  have hlt : k * W < vals.length := chunk_start_lt hW hk
  refine ⟨?_, ?_⟩
  · rw [h1, h2]
    exact le_min (Nat.le_pred_of_lt hlt)
      (Nat.le_pred_of_lt (Nat.lt_add_of_pos_right hW))
  · rw [h2]
    exact min_le_left _ _

lemma hotspotRank_subset {agg : List Seg} {topK : ℕ} {s : Seg}
    (hs : s ∈ hotspotRank agg topK) : s ∈ agg := by
  unfold hotspotRank at hs
  exact (List.mergeSort_perm agg _).subset (List.mem_of_mem_take hs)

/-! ## Claim theorems -/

/-- C7: every surfaced trend outlook is one of Stable / Increasing /
Decreasing; `toTrend3` maps Worsening to Increasing, Improving to
Decreasing, keeps the three canonical labels, and sends any other value
(including a missing or empty one) to Stable. -/
theorem C7_trend_outlook_normalised :
    (∀ raw : Option String,
      toTrend3 raw = "Stable" ∨ toTrend3 raw = "Increasing" ∨
        toTrend3 raw = "Decreasing") ∧
    toTrend3 (some "Worsening") = "Increasing" ∧
    toTrend3 (some "Improving") = "Decreasing" ∧
    toTrend3 (some "Increasing") = "Increasing" ∧
    toTrend3 (some "Decreasing") = "Decreasing" ∧
    toTrend3 (some "Stable") = "Stable" ∧
    toTrend3 none = "Stable" ∧
    toTrend3 (some "") = "Stable" ∧
    ∀ s : String, s ≠ "Worsening" → s ≠ "Improving" → s ≠ "Increasing" →
      s ≠ "Decreasing" → s ≠ "Stable" → toTrend3 (some s) = "Stable" := by
  refine ⟨?_, rfl, rfl, rfl, rfl, rfl, rfl, rfl, ?_⟩
  · intro raw
    unfold toTrend3
    generalize toTrend3Coerce raw = v
    split_ifs with h1 h2 h3
    · exact Or.inr (Or.inl rfl)
    · exact Or.inr (Or.inr rfl)
    · simp only [Bool.or_eq_true, decide_eq_true_eq] at h3
      rcases h3 with (h | h) | h <;> simp [h]
    · exact Or.inl rfl
  · intro s h1 h2 h3 h4 h5
    by_cases he : s = ""
    · subst he; rfl
    · have hco : toTrend3Coerce (some s) = s := if_neg he
      unfold toTrend3
      rw [hco, if_neg h1, if_neg h2, if_neg (by simp [h3, h4, h5])]

/-- C7 witness: an unrecognised backend outlook string maps to Stable. -/
theorem C7_witness : toTrend3 (some "Oscillating") = "Stable" :=
  C7_trend_outlook_normalised.2.2.2.2.2.2.2.2 "Oscillating"
    (by decide) (by decide) (by decide) (by decide) (by decide)

/-- C9: the gauge fill fraction is clamped into `[0, 1]`, the divisor is
guarded (`max == min` is replaced by 1, so it is never zero) and the needle
angle always lies in `[-90, 90]` degrees. -/
theorem C9_gauge_needle_safe (value mn mx : ℚ) :
    0 ≤ gaugePct value mn mx ∧ gaugePct value mn mx ≤ 1 ∧
    gaugeDenom mn mx ≠ 0 ∧
    -90 ≤ gaugeAngle value mn mx ∧ gaugeAngle value mn mx ≤ 90 := by
  have h0 : 0 ≤ gaugePct value mn mx := le_max_left _ _
  have h1 : gaugePct value mn mx ≤ 1 :=
    max_le (by norm_num) (min_le_left _ _)
  refine ⟨h0, h1, ?_, ?_, ?_⟩
  · unfold gaugeDenom
    split_ifs with h
    · norm_num
    · exact h
  · unfold gaugeAngle; linarith
  · unfold gaugeAngle; linarith

/-- C5: an omitted `smoothing_window` is submitted as 5, an omitted
`emission_factor` as 0.23, an omitted `entrance_bias` as 0. -/
theorem C5_request_defaults (v : String) :
    (analyzeTrafficAsyncParams v none none none).smoothing_window = 5 ∧
    climateEmissionFactor none = 23 / 100 ∧
    accessibilityEntranceBias none = 0 :=
  ⟨rfl, rfl, rfl⟩

/-- C4: the congestion penalty is 0 for Low, 10 for Medium, 30 for High,
and the final score is the base score minus that penalty (final-score
combination modelled from the spec, the backend scorer being outside the
frontend sources). -/
theorem C4_penalty_and_final_score (base : ℚ) :
    penaltyFor "Low" = 0 ∧ penaltyFor "Medium" = 10 ∧
    penaltyFor "High" = 30 ∧
    finalScore base "Low" = base - 0 ∧
    finalScore base "Medium" = base - 10 ∧
    finalScore base "High" = base - 30 := by
  refine ⟨by decide, by decide, by decide, ?_, ?_, ?_⟩ <;>
    simp [finalScore, penaltyFor]

/-- C1 counterexample: with no backend text, a final score of exactly 0 and
congestion class High, the displayed recommendation is "Avoid parking" even
though the score is not negative — so the text is not determined solely by
the sign of the score, and a tie does not always yield "Okay to park". -/
theorem C1_counterexample :
    recText none 0 "High" = "Avoid parking" ∧ ¬ ((0 : ℚ) < 0) := by
  constructor
  · show recFallback 0 "High" = _
    have hb : (decide ((0 : ℚ) < 0) || hasHighCI "High") = true := by
      have hh : hasHighCI "High" = true := by decide
      simp [hh]
    unfold recFallback
    rw [if_pos hb]
  · norm_num

/-- C1 (amended): a non-empty backend `recommendation_text` is displayed
unchanged; otherwise the fallback shows "Avoid parking" iff the final score
is negative or the congestion string contains "high" case-insensitively,
and "Okay to park" otherwise (in particular at a tie with a non-High
congestion class). -/
theorem C1_amended_recommendation_rule (score : ℚ) (cong : String) :
    (recFallback score cong = "Avoid parking" ↔
      score < 0 ∨ hasHighCI cong = true) ∧
    (recFallback score cong = "Okay to park" ↔
      ¬(score < 0 ∨ hasHighCI cong = true)) ∧
    (score = 0 → hasHighCI cong = false →
      recFallback score cong = "Okay to park") ∧
    (∀ t : String, t ≠ "" → recText (some t) score cong = t) ∧
    recText none score cong = recFallback score cong := by
  have key : (decide (score < 0) || hasHighCI cong) = true ↔
      score < 0 ∨ hasHighCI cong = true := by
    simp [Bool.or_eq_true, decide_eq_true_eq]
  refine ⟨?_, ?_, ?_, ?_, rfl⟩
  · unfold recFallback
    by_cases h : score < 0 ∨ hasHighCI cong = true
    · rw [if_pos (key.mpr h)]; simp [h]
    · rw [if_neg (fun hb => h (key.mp hb))]; simp [h]
  · unfold recFallback
    by_cases h : score < 0 ∨ hasHighCI cong = true
    · rw [if_pos (key.mpr h)]; simp [h]
    · rw [if_neg (fun hb => h (key.mp hb))]; simp [h]
  · intro hs hh
    unfold recFallback
    rw [if_neg]
    rw [key]
    rintro (h | h)
    · rw [hs] at h; exact absurd h (by norm_num)
    · rw [hh] at h; exact Bool.false_ne_true h
  · intro t ht
    show (if t = "" then recFallback score cong else t) = t
    rw [if_neg ht]

/-- C1 amended-claim witness at a concrete input. -/
theorem C1_amended_witness :
    recText (some "custom note") 0 "High" = "custom note" :=
  (C1_amended_recommendation_rule 0 "High").2.2.2.1 "custom note" (by decide)

/-- C2: the client-side trend metrics operate on the last
`min(len(series), 90)` smoothed samples; below 6 samples no metrics are
produced (the backend TrendDetector, modelled from the spec, degrades to
Stable / Low); otherwise the slope is `(last - first) / (N - 1)` over that
window. -/
theorem C2_trend_window_and_slope (frames : List FrameRec) :
    (frames.length < 6 →
      techTrendSlope frames = none ∧ techTrendVol frames = none) ∧
    (6 ≤ frames.length →
      (trendWindow frames).length = min frames.length 90 ∧
      trendWindow frames <:+ frames.map frameVal ∧
      techTrendSlope frames =
        some (((trendWindow frames).getLastD 0 - (trendWindow frames).headD 0) /
          (((min frames.length 90 : ℕ) : ℚ) - 1))) ∧
    degradedTrendOutput = ("Stable", "Low") := by
  refine ⟨?_, ?_, rfl⟩
  · intro hlt
    have hN : trendN frames < 6 := by unfold trendN; omega
    exact ⟨by unfold techTrendSlope; rw [if_pos hN],
      by unfold techTrendVol; rw [if_pos hN]⟩
  · intro h6
    have hN : 6 ≤ trendN frames := by unfold trendN; omega
    have hlen : (trendWindow frames).length = trendN frames :=
      trendWindow_length frames
    refine ⟨hlen, trendWindow_suffix frames, ?_⟩
    unfold techTrendSlope
    rw [if_neg (by omega), hlen]
    have hmax : max 1 (trendN frames - 1) = trendN frames - 1 := by omega
    rw [hmax]
    have hcast : ((trendN frames - 1 : ℕ) : ℚ) =
        ((trendN frames : ℕ) : ℚ) - 1 := by
      have h1 : 1 ≤ trendN frames := by omega
      push_cast [Nat.cast_sub h1]
      ring
    rw [hcast]
    rfl

/-- C2 witness at a concrete 7-sample series. -/
theorem C2_witness :
    6 ≤ (List.replicate 7 (⟨some 3, some 3⟩ : FrameRec)).length ∧
    ((trendWindow (List.replicate 7 (⟨some 3, some 3⟩ : FrameRec))).length =
      min (List.replicate 7 (⟨some 3, some 3⟩ : FrameRec)).length 90 ∧
    trendWindow (List.replicate 7 (⟨some 3, some 3⟩ : FrameRec)) <:+
      (List.replicate 7 (⟨some 3, some 3⟩ : FrameRec)).map frameVal ∧
    techTrendSlope (List.replicate 7 (⟨some 3, some 3⟩ : FrameRec)) =
      some (((trendWindow (List.replicate 7 (⟨some 3, some 3⟩ : FrameRec))).getLastD 0 -
          (trendWindow (List.replicate 7 (⟨some 3, some 3⟩ : FrameRec))).headD 0) /
        (((min (List.replicate 7 (⟨some 3, some 3⟩ : FrameRec)).length 90 : ℕ) : ℚ) - 1))) :=
  ⟨by decide,
    (C2_trend_window_and_slope (List.replicate 7 ⟨some 3, some 3⟩)).2.1 (by decide)⟩

/-- C3: the trend window of at least 6 samples is split at its midpoint
into halves A and B; `volChangePct` is `(std(B) - std(A)) / std(A) * 100`
with population standard deviation, is defined as 0 whenever `std(A) = 0`,
and a constant series always yields 0. -/
theorem C3_volatility_change (frames : List FrameRec)
    (h : 6 ≤ frames.length) :
    trendHalfA frames ++ trendHalfB frames = trendWindow frames ∧
    (trendHalfA frames).length = (trendWindow frames).length / 2 ∧
    (jsStd (trendHalfA frames) = 0 → techTrendVol frames = some 0) ∧
    (jsStd (trendHalfA frames) ≠ 0 →
      techTrendVol frames =
        some ((jsStd (trendHalfB frames) - jsStd (trendHalfA frames)) /
          jsStd (trendHalfA frames) * 100)) ∧
    (∀ c : ℚ, frames.map frameVal = List.replicate frames.length c →
      techTrendVol frames = some 0) := by
  refine ⟨List.take_append_drop _ _, ?_, techTrendVol_of_stdA_eq_zero frames h, ?_, ?_⟩
  · rw [trendHalfA, List.length_take]
    exact Nat.min_eq_left (Nat.div_le_self _ _)
  · intro hne
    have hpos : 0 < jsStd (trendHalfA frames) :=
      lt_of_le_of_ne (jsStd_nonneg _) (Ne.symm hne)
    unfold techTrendVol
    rw [if_neg (by unfold trendN; omega), if_pos hpos]
  · intro c hc
    apply techTrendVol_of_stdA_eq_zero frames h
    have hw : trendWindow frames =
        List.replicate (frames.length - (frames.length - trendN frames)) c := by
      unfold trendWindow
      rw [List.map_drop, hc, List.drop_replicate]
    have ha : trendHalfA frames =
        List.replicate
          (min ((trendWindow frames).length / 2)
            (frames.length - (frames.length - trendN frames))) c := by
      rw [trendHalfA, hw, List.take_replicate]
    rw [jsStd, ha, popVar_replicate, Rat.cast_zero, Real.sqrt_zero]

/-- C3 witness at a concrete constant 6-sample series. -/
theorem C3_witness :
    6 ≤ (List.replicate 6 (⟨some 4, some 4⟩ : FrameRec)).length ∧
    techTrendVol (List.replicate 6 (⟨some 4, some 4⟩ : FrameRec)) = some 0 :=
  ⟨by decide,
    (C3_volatility_change (List.replicate 6 ⟨some 4, some 4⟩)
      (by decide)).2.2.2.2 4 (by rfl)⟩

/-- C6: for a non-empty frame series the recommended hotspot segments come
from a partition into consecutive fixed-size windows: their frame ranges
are pairwise non-overlapping and lie within `[0, len - 1]`, at most `topK`
segments are returned, and they are ordered by descending average count. -/
theorem C6_hotspot_segments (frames : List FrameRec) (windowSize topK : ℕ)
    (hne : frames ≠ []) :
    (hotspotWindows frames windowSize topK).length ≤ topK ∧
    (∀ s ∈ hotspotWindows frames windowSize topK,
      s.start ≤ s.stop ∧ s.stop ≤ frames.length - 1) ∧
    List.Pairwise (fun s t => s.stop < t.start ∨ t.stop < s.start)
      (hotspotWindows frames windowSize topK) ∧
    List.Pairwise (fun s t => t.avg ≤ s.avg)
      (hotspotWindows frames windowSize topK) := by
  have hvlen : (frames.map frameVal).length = frames.length :=
    List.length_map _ _
  have hpos : ¬ (frames.map frameVal).length = 0 := by
    rw [hvlen]
    exact fun h0 => hne (List.length_eq_zero.mp h0)
  have hW : 0 < hotspotW (frames.map frameVal).length windowSize :=
    hotspotW_pos _ _
  have hunf : hotspotWindows frames windowSize topK =
      hotspotRank
        (hotspotAgg (frames.map frameVal)
          (hotspotW (frames.map frameVal).length windowSize)) topK := by
    unfold hotspotWindows
    rw [if_neg hpos]
  refine ⟨?_, ?_, ?_, ?_⟩
  · rw [hunf]
    unfold hotspotRank
    exact List.length_take_le _ _
  · intro s hs
    rw [hunf] at hs
    have hmem := hotspotRank_subset hs
    have hb := hotspotAgg_bounds hW hmem
    rwa [hvlen] at hb
  · rw [hunf]
    have h1 := hotspotAgg_pairwise_sep (frames.map frameVal) hW
    have h2 : List.Pairwise
        (fun s t : Seg => s.stop < t.start ∨ t.stop < s.start)
        (hotspotAgg (frames.map frameVal)
          (hotspotW (frames.map frameVal).length windowSize)) :=
      h1.imp (fun h => Or.inl h)
    have hsym : ∀ {x y : Seg},
        (x.stop < y.start ∨ y.stop < x.start) →
        (y.stop < x.start ∨ x.stop < y.start) := fun h => h.symm
    have h3 := ((List.mergeSort_perm _
      (fun a b : Seg => b.avg ≤ a.avg)).pairwise_iff hsym).mpr h2
    exact h3.sublist (List.take_sublist _ _)
  · rw [hunf]
    unfold hotspotRank
    have htrans : ∀ a b c : Seg,
        (fun a b : Seg => decide (b.avg ≤ a.avg)) a b = true →
        (fun a b : Seg => decide (b.avg ≤ a.avg)) b c = true →
        (fun a b : Seg => decide (b.avg ≤ a.avg)) a c = true := by
      intro a b c hab hbc
      simp only [decide_eq_true_eq] at *
      exact le_trans hbc hab
    have htot : ∀ a b : Seg,
        ((fun a b : Seg => decide (b.avg ≤ a.avg)) a b ||
         (fun a b : Seg => decide (b.avg ≤ a.avg)) b a) = true := by
      intro a b
      simp only [Bool.or_eq_true, decide_eq_true_eq]
      exact le_total b.avg a.avg
    have hsorted := List.sorted_mergeSort htrans htot
      (hotspotAgg (frames.map frameVal)
        (hotspotW (frames.map frameVal).length windowSize))
    have hsorted2 : List.Pairwise (fun s t : Seg => t.avg ≤ s.avg)
        ((hotspotAgg (frames.map frameVal)
          (hotspotW (frames.map frameVal).length windowSize)).mergeSort
            (fun a b : Seg => b.avg ≤ a.avg)) := by
      refine hsorted.imp ?_
      intro a b h
      simpa using h
    exact hsorted2.sublist (List.take_sublist _ _)

/-- C6 witness at a concrete 7-frame series. -/
theorem C6_witness :
    (List.replicate 7 (⟨some 2, some 2⟩ : FrameRec)) ≠ [] ∧
    (hotspotWindows (List.replicate 7 (⟨some 2, some 2⟩ : FrameRec)) 20 5).length ≤ 5 ∧
    (∀ s ∈ hotspotWindows (List.replicate 7 (⟨some 2, some 2⟩ : FrameRec)) 20 5,
      s.start ≤ s.stop ∧
        s.stop ≤ (List.replicate 7 (⟨some 2, some 2⟩ : FrameRec)).length - 1) ∧
    List.Pairwise (fun s t => s.stop < t.start ∨ t.stop < s.start)
      (hotspotWindows (List.replicate 7 (⟨some 2, some 2⟩ : FrameRec)) 20 5) ∧
    List.Pairwise (fun s t => t.avg ≤ s.avg)
      (hotspotWindows (List.replicate 7 (⟨some 2, some 2⟩ : FrameRec)) 20 5) :=
  ⟨by decide,
    C6_hotspot_segments (List.replicate 7 ⟨some 2, some 2⟩) 20 5 (by decide)⟩

/-- C8: the polling loop treats `done` and `error` as terminal — on `done`
the interval is cleared and the stored result surfaced, on `error` the
interval is cleared and the error message surfaced, a cleared interval
never fires again, and any other status or a transient fetch failure
leaves the loop running unchanged. -/
theorem C8_polling_terminal {R : Type} (s : PollState R) (res : Option R)
    (err : Option String) (status : String) (rs : List (PollResp R)) :
    (s.active = true →
      pollStep s (.ok "done" res err) =
        { active := false, data := res, errMsg := s.errMsg }) ∧
    (s.active = true →
      pollStep s (.ok "error" res err) =
        { active := false, data := s.data,
          errMsg := some ((err.filter (· ≠ "")).getD "Analysis error") }) ∧
    (s.active = false → pollRun s rs = s) ∧
    (s.active = true → status ≠ "done" → status ≠ "error" →
      pollStep s (.ok status res err) = s) ∧
    pollStep s .fail = s ∧
    (s.active = true →
      pollRun s (.ok "done" res err :: rs) =
        { active := false, data := res, errMsg := s.errMsg }) := by
  refine ⟨?_, ?_, fun h => pollRun_inactive s rs h, ?_, ?_, ?_⟩
  · intro h
    unfold pollStep
    rw [h]
    rfl
  · intro h
    unfold pollStep
    rw [h]
    rfl
  · intro h h1 h2
    unfold pollStep
    rw [h]
    simp [h1, h2]
  · unfold pollStep
    cases ha : s.active <;> rfl
  · intro h
    show pollRun (pollStep s (.ok "done" res err)) rs = _
    have hdone : pollStep s (.ok "done" res err) =
        { active := false, data := res, errMsg := s.errMsg } := by
      unfold pollStep
      rw [h]
      rfl
    rw [hdone, pollRun_inactive _ rs rfl]

/-- C8 witness at a concrete state and trace. -/
theorem C8_witness :
    ((⟨true, none, none⟩ : PollState ℕ) : PollState ℕ).active = true ∧
    pollRun (⟨true, none, none⟩ : PollState ℕ)
      [.ok "done" (some 7) none, .fail, .ok "error" none none] =
      ⟨false, some 7, none⟩ :=
  ⟨rfl,
    (C8_polling_terminal (⟨true, none, none⟩ : PollState ℕ) (some 7) none
      "processing" [.fail, .ok "error" none none]).2.2.2.2.2 rfl⟩

/-- C10: each of the three API client functions first tries the proxied
base URL, retries the direct backend URL on failure, and when both fail
propagates the original proxy-path error, not the fallback error. -/
theorem C10_fetch_fallback_propagates {ε ρ : Type}
    (net : String → Except ε ρ) (e e2 : ε) (r : ρ) (q : String) :
    (net (API_BASE ++ "/upload") = .error e →
      net (API_DIRECT ++ "/upload") = .error e2 →
      uploadVideo net = .error e) ∧
    (net (API_BASE ++ "/upload") = .error e →
      net (API_DIRECT ++ "/upload") = .ok r → uploadVideo net = .ok r) ∧
    (net (API_BASE ++ "/upload") = .ok r → uploadVideo net = .ok r) ∧
    (net (API_BASE ++ "/analyze_async") = .error e →
      net (API_DIRECT ++ "/analyze_async") = .error e2 →
      analyzeTrafficAsyncFetch net = .error e) ∧
    (net (API_BASE ++ "/analyze_async") = .error e →
      net (API_DIRECT ++ "/analyze_async") = .ok r →
      analyzeTrafficAsyncFetch net = .ok r) ∧
    (net (API_BASE ++ "/analyze_async") = .ok r →
      analyzeTrafficAsyncFetch net = .ok r) ∧
    (net (API_BASE ++ "/progress?" ++ q) = .error e →
      net (API_DIRECT ++ "/progress?" ++ q) = .error e2 →
      getProgressFetch net q = .error e) ∧
    (net (API_BASE ++ "/progress?" ++ q) = .error e →
      net (API_DIRECT ++ "/progress?" ++ q) = .ok r →
      getProgressFetch net q = .ok r) ∧
    (net (API_BASE ++ "/progress?" ++ q) = .ok r →
      getProgressFetch net q = .ok r) := by
  unfold uploadVideo analyzeTrafficAsyncFetch getProgressFetch fetchFallback
  refine ⟨?_, ?_, ?_, ?_, ?_, ?_, ?_, ?_, ?_⟩ <;>
    first
      | (intro h1 h2; rw [h1, h2])
      | (intro h1; rw [h1])

/-- C10 witness: with every URL failing and the error carrying the URL, the
propagated error names the proxy path. -/
theorem C10_witness :
    uploadVideo (fun u => (Except.error u : Except String Unit)) =
      Except.error "/api/upload" :=
  (C10_fetch_fallback_propagates
    (fun u => (Except.error u : Except String Unit))
    "/api/upload" "http://127.0.0.1:8000/upload" () "t").1 rfl rfl

end Traffic
